import Mathlib

/-!
Verification of the blogicum blog application's visibility and ownership
policy (src/blogicum/blog/views.py, urls.py, forms.py), shallowly embedded.

Posts, categories, users and comments are records; querysets are lists and
Django `filter(...)` calls become `List.filter` with the same predicates.
Django field lookups across a nullable foreign key (`category__is_published=True`)
join through the relation, so a row whose `category` is NULL is excluded by
the lookup; the embedding mirrors that with an `Option` match that returns
`false` on `none`.

The viewer of a request is `Option Nat`: `some uid` for an authenticated
user with primary key `uid`, `none` for an anonymous visitor (Django's
`AnonymousUser` compares unequal to every `User` row, which the embedding
reflects since `none ≠ some uid`).

`mixins.py` and `models.py` of the repository are not part of the excerpt;
definitions standing in for them are marked `Modelled from the spec:` in
their doc comments and follow the spec's wording.
-/

namespace Blogicum

/-- A row of the Category model: a slug (unique identifier) and the
`is_published` flag. -/
structure Category where
  slug : String
  is_published : Bool
deriving DecidableEq, Repr

/-- A row of the User model, with the fields the application reads
(`views.py` and `UserForm` in `forms.py`). -/
structure User where
  id : Nat
  username : String
  first_name : String
  last_name : String
  email : String
deriving DecidableEq, Repr

/-- A row of the Post model, with the fields `views.py` filters on.
`pub_date` is a timestamp, modelled as an integer; `category` is the
optional foreign key; `author` holds the owning user's primary key. -/
structure Post where
  id : Nat
  author : Nat
  title : String
  text : String
  pub_date : Int
  is_published : Bool
  category : Option Category
deriving DecidableEq, Repr

/-- A row of the Comment model: foreign keys to its post and author, and
the text. -/
structure Comment where
  id : Nat
  post : Nat
  author : Nat
  text : String
deriving DecidableEq, Repr

/-- Django lookup `category__is_published=True` on a Post: the ORM joins
through the nullable foreign key, so a post with `category` NULL is
excluded by the lookup (the generated SQL condition is not satisfied by a
NULL join). -/
def categoryPublishedLookup (p : Post) : Bool :=
  match p.category with
  | some c => c.is_published
  | none => false

/-- Modelled from the spec: `PostListMixin` (mixins.py, absent from the
excerpt) supplies the base queryset of all posts with ordering and
pagination; membership in the base queryset is the full table. -/
def baseQueryset (db : List Post) : List Post := db

/-- `IndexHome.get_queryset` (views.py lines 21-26): the home listing
filters `is_published=True, pub_date__lte=timezone.now(),
category__is_published=True` over the base queryset. -/
def indexQueryset (db : List Post) (now : Int) : List Post :=
  (baseQueryset db).filter fun p =>
    p.is_published && decide (p.pub_date ≤ now) && categoryPublishedLookup p

/-- `get_object_or_404(qs, pk=pid)` / queryset `.get(pk=pid)`: the first
row of the list with the given primary key, `none` meaning Http404. -/
def findPost (db : List Post) (pid : Nat) : Option Post :=
  db.find? fun p => p.id == pid

/-- `PostDetailView.get_object` (views.py lines 34-48): fetch the post by
`post_id` (404 when absent); when the requester is not its author,
re-fetch through the queryset filtered by
`pub_date__lte=timezone.now(), category__is_published=True,
is_published=True`, 404 when the filter drops it. -/
def postDetail (db : List Post) (viewer : Option Nat) (now : Int)
    (pid : Nat) : Option Post :=
  match findPost db pid with
  | none => none
  | some obj =>
    if some obj.author ≠ viewer then
      findPost
        (db.filter fun p =>
          decide (p.pub_date ≤ now) && categoryPublishedLookup p
            && p.is_published)
        pid
    else
      some obj

/-- `get_object_or_404(Category, slug=..., is_published=True)` in
`CategoryListView.get_queryset` (views.py lines 63-67). -/
def findPublishedCategory (cats : List Category) (slug : String) :
    Option Category :=
  cats.find? fun c => c.slug == slug && c.is_published

/-- `CategoryListView.get_queryset` (views.py lines 62-73): 404 unless a
published category with the slug exists; then the base queryset filtered
by `is_published=True, pub_date__lte=timezone.now(),
category__is_published=True, category=self.category`. -/
def categoryListing (cats : List Category) (db : List Post) (now : Int)
    (slug : String) : Option (List Post) :=
  match findPublishedCategory cats slug with
  | none => none
  | some cat =>
    some ((baseQueryset db).filter fun p =>
      p.is_published && decide (p.pub_date ≤ now)
        && categoryPublishedLookup p && decide (p.category = some cat))

/-- `get_object_or_404(User, username=...)` in `ProfileView.get_queryset`
(views.py lines 85-88). -/
def findUserByName (users : List User) (username : String) : Option User :=
  users.find? fun u => u.username == username

/-- `ProfileView.get_queryset` (views.py lines 84-97): 404 unless the user
exists; when the requester is not the profile owner, filter
`is_published=True, category__is_published=True, author=self.author`
(the source applies no `pub_date` bound in this branch); the owner gets
all their own posts. -/
def profileListing (users : List User) (db : List Post)
    (viewer : Option Nat) (username : String) : Option (List Post) :=
  match findUserByName users username with
  | none => none
  | some u =>
    if some u.id ≠ viewer then
      some ((baseQueryset db).filter fun p =>
        p.is_published && categoryPublishedLookup p && p.author == u.id)
    else
      some ((baseQueryset db).filter fun p => p.author == u.id)

/-- `reverse('blog:profile', ...)` — urls.py maps `blog:profile` to
`/profile/<username>/`. -/
def profileUrl (username : String) : String :=
  "/profile/" ++ username ++ "/"

/-- `reverse('blog:post_detail', ...)` — urls.py maps `blog:post_detail`
to `/posts/<post_id>/`. -/
def postDetailUrl (pid : Nat) : String :=
  "/posts/" ++ toString pid ++ "/"

/-- The data a client may submit to `PostForm`. `PostForm.Meta` has
`exclude = ('author',)` (forms.py lines 8-15), so the form binds every
model field except `author`; `clientAuthor` stands for an author value the
client smuggles into the request, which the form does not bind. -/
structure PostFormData where
  title : String
  text : String
  pub_date : Int
  is_published : Bool
  category : Option Category
  clientAuthor : Option Nat
deriving DecidableEq, Repr

/-- Binding `PostForm` to data and an instance: every field of the
submission except the excluded `author` is written to the instance
(`clientAuthor` is not a form field and is dropped). -/
def bindPostForm (d : PostFormData) (inst : Post) : Post :=
  { inst with
    title := d.title
    text := d.text
    pub_date := d.pub_date
    is_published := d.is_published
    category := d.category }

/-- `CreatePostView.form_valid` (views.py lines 125-127): the form's new
instance gets `author = self.request.user` before saving; `newId` is the
primary key the database assigns. `get_success_url` (lines 129-133)
redirects to the requester's profile. -/
def createPost (viewer : User) (d : PostFormData) (newId : Nat) :
    Post × String :=
  (bindPostForm d
    { id := newId, author := viewer.id, title := "", text := "",
      pub_date := 0, is_published := false, category := none },
   profileUrl viewer.username)

/-- The response of a mutation view: a successful save or a rejection
(redirect without saving, or Http404). -/
inductive Response where
  | saved (redirect : String)
  | redirected (url : String)
  | notFound
deriving DecidableEq, Repr

/-- Modelled from the spec: `ChangePostMixin` (mixins.py, absent from the
excerpt) gates `PostUpdateView`/`PostDeleteView` on `may_mutate`, i.e.
`viewer == item.author`, and otherwise rejects the request by redirecting
to the post's detail page without mutating (spec 4.1, 4.4: "requires
authenticated viewer AND `may_mutate` to hold; otherwise the operation is
rejected (redirect-to-detail or 404, depending on item type)"). -/
def changePostGate (db : List Post) (viewer : User) (pid : Nat) :
    Option (Option Post) :=
  match findPost db pid with
  | none => none
  | some p => some (if p.author == viewer.id then some p else none)

/-- `PostUpdateView` (views.py lines 136-143) behind `ChangePostMixin`:
a non-author is redirected to the detail page and the table is unchanged;
the author's submission rebinds `PostForm` over the existing instance
(author excluded) and on success redirects to `blog:post_detail`
(`get_success_url`, lines 139-143). -/
def updatePost (db : List Post) (viewer : User) (pid : Nat)
    (d : PostFormData) : List Post × Response :=
  match changePostGate db viewer pid with
  | none => (db, .notFound)
  | some none => (db, .redirected (postDetailUrl pid))
  | some (some _) =>
    (db.map fun p => if p.id == pid then bindPostForm d p else p,
     .saved (postDetailUrl pid))

/-- `PostDeleteView` (views.py lines 146-156) behind `ChangePostMixin`:
a non-author is redirected without deletion; the author's delete removes
the row and redirects to the requester's profile (`get_success_url`,
lines 152-156). -/
def deletePost (db : List Post) (viewer : User) (pid : Nat) :
    List Post × Response :=
  match changePostGate db viewer pid with
  | none => (db, .notFound)
  | some none => (db, .redirected (postDetailUrl pid))
  | some (some _) =>
    (db.filter fun p => !(p.id == pid), .saved (profileUrl viewer.username))

/-- The data a client may submit to `CommentForm`. `CommentForm.Meta` has
`fields = ('text',)` (forms.py lines 24-30), so only `text` is bound;
`clientAuthor` stands for an author value the client smuggles into the
request, which the form does not bind. -/
structure CommentFormData where
  text : String
  clientAuthor : Option Nat
deriving DecidableEq, Repr

/-- `CommentCreateView.form_valid` (views.py lines 159-169): the new
comment's `author` is set to `self.request.user` and its `post` to
`get_object_or_404(Post, pk=post_id)` — a lookup over all posts, with no
visibility filter, 404 only when no post has that id. On success the view
redirects to the post's detail page (`get_success_url`, lines 171-173). -/
def createComment (db : List Post) (comments : List Comment)
    (viewer : User) (pid : Nat) (d : CommentFormData) (newId : Nat) :
    List Comment × Response :=
  match findPost db pid with
  | none => (comments, .notFound)
  | some p =>
    (comments ++ [{ id := newId, post := p.id, author := viewer.id,
                    text := d.text }],
     .saved (postDetailUrl pid))

/-- `comment.get(pk=cid)`: the first comment with the given primary key. -/
def findComment (comments : List Comment) (cid : Nat) : Option Comment :=
  comments.find? fun c => c.id == cid

/-- Modelled from the spec: `CommentChangeMixin` (mixins.py, absent from
the excerpt) gates `CommentUpdateView`/`CommentDeleteView` on
`may_mutate`, i.e. `viewer == item.author`, rejecting a non-author with
Http404 (spec 4.4: rejected by "redirect-to-detail or 404, depending on
item type"), and on success redirects to the comment's post's detail page
(spec 4.4: "post-detail page for comments"). -/
def changeCommentGate (comments : List Comment) (viewer : User)
    (cid : Nat) : Option Comment :=
  match findComment comments cid with
  | none => none
  | some c => if c.author == viewer.id then some c else none

/-- `CommentUpdateView` (views.py lines 176-177) behind
`CommentChangeMixin`: a non-author receives Http404 and the table is
unchanged; the author's submission rebinds `CommentForm` (only `text`)
over the existing comment. -/
def updateComment (comments : List Comment) (viewer : User) (cid : Nat)
    (d : CommentFormData) : List Comment × Response :=
  match changeCommentGate comments viewer cid with
  | none => (comments, .notFound)
  | some c =>
    (comments.map fun x => if x.id == cid then { x with text := d.text }
       else x,
     .saved (postDetailUrl c.post))

/-- `CommentDeleteView` (views.py lines 180-181) behind
`CommentChangeMixin`: a non-author receives Http404 and the table is
unchanged; the author's delete removes the row. -/
def deleteComment (comments : List Comment) (viewer : User) (cid : Nat) :
    List Comment × Response :=
  match changeCommentGate comments viewer cid with
  | none => (comments, .notFound)
  | some c =>
    (comments.filter fun x => !(x.id == cid), .saved (postDetailUrl c.post))

/-- The data a client may submit to `UserForm`: `fields = ('username',
'first_name', 'last_name', 'email')` (forms.py lines 18-21). -/
structure UserFormData where
  username : String
  first_name : String
  last_name : String
  email : String
deriving DecidableEq, Repr

/-- Binding `UserForm` to data and a user instance: exactly the four
declared fields are written; the primary key is untouched. -/
def bindUserForm (d : UserFormData) (inst : User) : User :=
  { inst with
    username := d.username
    first_name := d.first_name
    last_name := d.last_name
    email := d.email }

/-- `ProfileUpdateView` (views.py lines 105-117): `get_object` returns
`self.request.user`, so the update is applied to the requester's own row
and only to it; every other row of the user table is untouched. -/
def editProfile (users : List User) (viewer : User) (d : UserFormData) :
    List User × Response :=
  (users.map fun u => if u.id == viewer.id then bindUserForm d u else u,
   .saved (profileUrl (bindUserForm d viewer).username))

/-- The spec's own non-owner visibility formula (spec 4.1): published,
past-or-present `pub_date`, and category published with the category
condition skipped when the post has no category. Stated from the spec's
words, for comparison with the queryset filters embedded above. -/
def specNonOwnerVisible (p : Post) (now : Int) : Bool :=
  p.is_published && decide (p.pub_date ≤ now) &&
    (match p.category with
     | some c => c.is_published
     | none => true)

section Fixtures

/-- A published category, for concrete instances. -/
def newsCat : Category := { slug := "news", is_published := true }

/-- An unpublished category, for concrete instances. -/
def draftCat : Category := { slug := "drafts", is_published := false }

/-- A concrete user, for concrete instances. -/
def alice : User :=
  { id := 1, username := "alice", first_name := "Alice", last_name := "A",
    email := "alice@example.com" }

/-- A second concrete user, distinct from `alice`. -/
def bob : User :=
  { id := 2, username := "bob", first_name := "Bob", last_name := "B",
    email := "bob@example.com" }

/-- A post of `alice` that satisfies every publish-visibility condition at
time 5. -/
def livePost : Post :=
  { id := 1, author := 1, title := "live", text := "body", pub_date := 0,
    is_published := true, category := some newsCat }

/-- A published, past-dated post of `alice` that has no category. -/
def bareCatPost : Post :=
  { id := 2, author := 1, title := "bare", text := "body", pub_date := 0,
    is_published := true, category := none }

/-- A published post of `alice` in a published category whose `pub_date`
(10) lies in the future of time 5. -/
def futurePost : Post :=
  { id := 3, author := 1, title := "future", text := "body", pub_date := 10,
    is_published := true, category := some newsCat }

/-- An unpublished post of `alice` in an unpublished category. -/
def hiddenPost : Post :=
  { id := 4, author := 1, title := "hidden", text := "body", pub_date := 0,
    is_published := false, category := some draftCat }

end Fixtures

/-- The queryset lookup `category__is_published=True` holds exactly when
the post has a category and that category is published. -/
theorem categoryPublishedLookup_iff (p : Post) :
    categoryPublishedLookup p = true ↔
      ∃ c, p.category = some c ∧ c.is_published = true := by
  cases h : p.category <;> simp [categoryPublishedLookup, h]

/-- C1 (counterexample). A post with no category that is published with a
past `pub_date` satisfies the claim's condition (the category condition is
skipped), yet the home listing omits it: `category__is_published=True`
joins through the category relation and drops NULL-category rows, so the
claimed iff fails for any viewer distinct from the author (here the
anonymous viewer). -/
theorem index_drops_uncategorized_post :
    bareCatPost.is_published = true ∧ bareCatPost.pub_date ≤ 5 ∧
      bareCatPost.category = none ∧ (1 : Nat) = bareCatPost.author ∧
      bareCatPost ∉ indexQueryset [bareCatPost] 5 := by
  decide

/-- C1 (amended). For every post P (and hence every viewer, the home
listing being viewer-independent), P appears in the home listing iff P is
stored, `is_published` is true, `pub_date ≤ now`, and P HAS a category
that is published; a post with no category never appears. -/
theorem index_listing_iff_live (db : List Post) (now : Int) (p : Post) :
    p ∈ indexQueryset db now ↔
      p ∈ db ∧ p.is_published = true ∧ p.pub_date ≤ now ∧
        ∃ c, p.category = some c ∧ c.is_published = true := by
  simp [indexQueryset, baseQueryset, List.mem_filter,
    categoryPublishedLookup_iff, and_assoc]

/-- C1 (witness). `livePost` — published, past-dated, in the published
`newsCat` — appears in the home listing at time 5. -/
theorem index_listing_iff_live_witness :
    livePost ∈ indexQueryset [livePost] 5 :=
  (index_listing_iff_live [livePost] 5 livePost).mpr
    ⟨by decide, by decide, by decide, newsCat, by decide, by decide⟩

/-- C2 (code evaluated at the failing input). `alice`'s post dated in the
future of `now = 5`, published and in a published category, is listed on
her profile page to the anonymous viewer: `ProfileView.get_queryset`'s
non-owner branch filters `is_published` and `category__is_published` but
applies no `pub_date` bound, contradicting the claim that the full
non-owner visibility branch is applied. -/
theorem profile_lists_future_post_to_anonymous :
    (5 : Int) < futurePost.pub_date ∧
      futurePost.is_published = true ∧
      (some futurePost.author ≠ (none : Option Nat)) ∧
      profileListing [alice] [futurePost] none "alice" = some [futurePost] := by
  decide

/-- A post passing the detail view's non-owner re-fetch filter also
satisfies the spec's non-owner visibility formula (the filter is the
stricter of the two: it additionally requires the category to exist). -/
theorem detail_filter_implies_spec_visible (p : Post) (now : Int)
    (h : (decide (p.pub_date ≤ now) && categoryPublishedLookup p
        && p.is_published) = true) :
    specNonOwnerVisible p now = true := by
  cases hc : p.category with
  | none => simp [categoryPublishedLookup, hc] at h
  | some c =>
    simp only [specNonOwnerVisible, categoryPublishedLookup, hc,
      Bool.and_eq_true] at h ⊢
    tauto

/-- A successful primary-key fetch returns a stored row bearing that
key. -/
theorem findPost_mem_and_id {db : List Post} {pid : Nat} {p : Post}
    (h : findPost db pid = some p) : p ∈ db ∧ p.id = pid := by
  unfold findPost at h
  exact ⟨List.mem_of_find?_eq_some h, by simpa using List.find?_some h⟩

/-- Rows of a table with pairwise-distinct primary keys are determined by
their key. -/
theorem post_id_inj {db : List Post} (hnodup : (db.map Post.id).Nodup)
    {p q : Post} (hp : p ∈ db) (hq : q ∈ db) (h : p.id = q.id) : p = q :=
  List.inj_on_of_nodup_map hnodup hp hq h

/-- C3. In a table with distinct primary keys, a post that fails the
non-owner visibility formula is served as Http404 by the detail view to
every viewer other than its author, and that outcome coincides with the
outcome for a primary key that matches no post at all: both are `none`. -/
theorem hidden_detail_not_found (db : List Post) (viewer : Option Nat)
    (now : Int) (pid : Nat) (p : Post)
    (hnodup : (db.map Post.id).Nodup)
    (hfind : findPost db pid = some p)
    (hown : viewer ≠ some p.author)
    (hvis : specNonOwnerVisible p now = false) :
    postDetail db viewer now pid = none ∧
      ∀ db2 pid2, findPost db2 pid2 = none →
        postDetail db2 viewer now pid2 = none := by
  constructor
  · have hcond : some p.author ≠ viewer := fun h => hown h.symm
    simp only [postDetail, hfind, if_pos hcond]
    rw [findPost, List.find?_eq_none]
    intro q hq
    rw [List.mem_filter] at hq
    obtain ⟨hqdb, hqpred⟩ := hq
    simp only [beq_iff_eq]
    intro hid
    obtain ⟨hpmem, hpid⟩ := findPost_mem_and_id hfind
    have hqp : q = p :=
      post_id_inj hnodup hqdb hpmem (by rw [hid, hpid])
    subst hqp
    exact absurd (detail_filter_implies_spec_visible q now hqpred)
      (by rw [hvis]; decide)
  · intro db2 pid2 h
    unfold postDetail
    rw [h]

/-- C3 (witness). `hiddenPost` (unpublished, unpublished category) is
Http404 to viewer 2 ≠ its author 1, exactly like a nonexistent id. -/
theorem hidden_detail_not_found_witness :
    postDetail [hiddenPost] (some 2) 5 4 = none ∧
      ∀ db2 pid2, findPost db2 pid2 = none →
        postDetail db2 (some 2) 5 pid2 = none :=
  hidden_detail_not_found [hiddenPost] (some 2) 5 4 hiddenPost
    (by decide) (by decide) (by decide) (by decide)

/-- C4. The author of a post always retrieves it through the detail view
and always finds it in their own profile listing, whatever its publish
flag, date, or category state. -/
theorem author_sees_own_content (users : List User) (db : List Post)
    (now : Int) (pid : Nat) (p : Post) (username : String) (u : User)
    (hfind : findPost db pid = some p)
    (hu : findUserByName users username = some u)
    (ha : p.author = u.id) :
    postDetail db (some p.author) now pid = some p ∧
      ∃ l, profileListing users db (some p.author) username = some l ∧
        p ∈ l := by
  constructor
  · simp [postDetail, hfind]
  · refine ⟨(baseQueryset db).filter (fun q => q.author == u.id), ?_, ?_⟩
    · simp [profileListing, hu, ha]
    · exact List.mem_filter.mpr
        ⟨(findPost_mem_and_id hfind).1, by simp [ha]⟩

/-- C4 (witness). `alice` (id 1) sees her own unpublished `hiddenPost` in
the detail view and in her profile listing at time 5. -/
theorem author_sees_own_content_witness :
    postDetail [hiddenPost] (some hiddenPost.author) 5 4 = some hiddenPost ∧
      ∃ l, profileListing [alice] [hiddenPost] (some hiddenPost.author)
          "alice" = some l ∧ hiddenPost ∈ l :=
  author_sees_own_content [alice] [hiddenPost] 5 4 hiddenPost "alice" alice
    (by decide) (by decide) (by decide)

/-- A comment by `alice` on post 1, for concrete instances. -/
def aliceComment : Comment := { id := 1, post := 1, author := 1, text := "hi" }

/-- A concrete `PostForm` submission that also smuggles a client-side
author value. -/
def sampleForm : PostFormData :=
  { title := "new", text := "new", pub_date := 0, is_published := true,
    category := some newsCat, clientAuthor := some 2 }

/-- A concrete `CommentForm` submission that also smuggles a client-side
author value. -/
def sampleCommentForm : CommentFormData :=
  { text := "edited", clientAuthor := some 2 }

/-- C5. An authenticated viewer who is not the author of a stored post or
comment has every edit and delete request for it rejected — redirect to
the post's detail page for posts, Http404 for comments — with the stored
tables unchanged; hence only the author can make these operations
succeed. -/
theorem non_author_mutation_rejected (db : List Post)
    (comments : List Comment) (viewer : User) (pid cid : Nat)
    (pd : PostFormData) (cd : CommentFormData) (p : Post) (c : Comment)
    (hp : findPost db pid = some p) (hpo : p.author ≠ viewer.id)
    (hc : findComment comments cid = some c) (hco : c.author ≠ viewer.id) :
    updatePost db viewer pid pd = (db, .redirected (postDetailUrl pid)) ∧
      deletePost db viewer pid = (db, .redirected (postDetailUrl pid)) ∧
      updateComment comments viewer cid cd = (comments, .notFound) ∧
      deleteComment comments viewer cid = (comments, .notFound) := by
  have hgp : changePostGate db viewer pid = some none := by
    simp [changePostGate, hp, hpo]
  have hgc : changeCommentGate comments viewer cid = none := by
    simp [changeCommentGate, hc, hco]
  exact ⟨by simp [updatePost, hgp], by simp [deletePost, hgp],
    by simp [updateComment, hgc], by simp [deleteComment, hgc]⟩

/-- C5 (witness). `bob` (id 2) cannot edit or delete `alice`'s `livePost`
or `aliceComment`; the tables are unchanged and the requests are rejected
as a redirect (post) or Http404 (comment). -/
theorem non_author_mutation_rejected_witness :
    updatePost [livePost] bob 1 sampleForm
        = ([livePost], .redirected (postDetailUrl 1)) ∧
      deletePost [livePost] bob 1
        = ([livePost], .redirected (postDetailUrl 1)) ∧
      updateComment [aliceComment] bob 1 sampleCommentForm
        = ([aliceComment], .notFound) ∧
      deleteComment [aliceComment] bob 1 = ([aliceComment], .notFound) :=
  non_author_mutation_rejected [livePost] [aliceComment] bob 1 1
    sampleForm sampleCommentForm livePost aliceComment
    (by decide) (by decide) (by decide) (by decide)

/-- C6. The author stored by post and comment creation is the session's
authenticated user: the created post's `author` field equals the
requester's id, and two submissions differing only in the client-supplied
author value produce identical results; every comment stored after a
comment-creation request either pre-existed or carries the requester as
author. -/
theorem create_author_from_session (viewer : User) (t tx : String)
    (pd : Int) (ip : Bool) (cat : Option Category) (a1 a2 : Option Nat)
    (n : Nat) (db : List Post) (comments : List Comment) (pid : Nat)
    (ct : String) :
    (createPost viewer ⟨t, tx, pd, ip, cat, a1⟩ n).1.author = viewer.id ∧
      createPost viewer ⟨t, tx, pd, ip, cat, a1⟩ n
        = createPost viewer ⟨t, tx, pd, ip, cat, a2⟩ n ∧
      createComment db comments viewer pid ⟨ct, a1⟩ n
        = createComment db comments viewer pid ⟨ct, a2⟩ n ∧
      ∀ c ∈ (createComment db comments viewer pid ⟨ct, a1⟩ n).1,
        c ∈ comments ∨ c.author = viewer.id := by
  refine ⟨rfl, rfl, ?_, ?_⟩
  · cases h : findPost db pid <;> simp [createComment, h]
  · intro c hc
    cases h : findPost db pid with
    | none =>
      simp only [createComment, h] at hc
      exact Or.inl hc
    | some p =>
      simp only [createComment, h, List.mem_append,
        List.mem_singleton] at hc
      rcases hc with hc | hc
      · exact Or.inl hc
      · subst hc
        exact Or.inr rfl

/-- C6 (witness). `alice` submitting a post and a comment that smuggle
author id 2 stores `alice` (id 1) as author, identically to a submission
smuggling no author at all. -/
theorem create_author_from_session_witness :
    (createPost alice ⟨"t", "x", 0, true, some newsCat, some 2⟩ 9).1.author
        = alice.id ∧
      createPost alice ⟨"t", "x", 0, true, some newsCat, some 2⟩ 9
        = createPost alice ⟨"t", "x", 0, true, some newsCat, none⟩ 9 ∧
      createComment [livePost] [] alice 1 ⟨"hi", some 2⟩ 9
        = createComment [livePost] [] alice 1 ⟨"hi", none⟩ 9 ∧
      ∀ c ∈ (createComment [livePost] [] alice 1 ⟨"hi", some 2⟩ 9).1,
        c ∈ ([] : List Comment) ∨ c.author = alice.id :=
  create_author_from_session alice "t" "x" 0 true (some newsCat)
    (some 2) none 9 [livePost] [] 1 "hi"

/-- A post whose category is unpublished fails the
`category__is_published=True` lookup. -/
theorem lookup_false_of_unpublished {p : Post} {c : Category}
    (hcat : p.category = some c) (hunpub : c.is_published = false) :
    categoryPublishedLookup p = false := by
  simp [categoryPublishedLookup, hcat, hunpub]

/-- C7. A post whose category is unpublished is absent from the home
listing, from every category listing, and from every profile listing
served to a viewer other than the profile owner; and when every stored
category carrying that slug is unpublished, the category's own listing
page is Http404 rather than a normal listing. -/
theorem unpublished_category_hides (cats : List Category) (db : List Post)
    (users : List User) (now : Int) (p : Post) (c : Category)
    (slug username : String) (viewer : Option Nat) (u : User)
    (hcat : p.category = some c) (hunpub : c.is_published = false) :
    p ∉ indexQueryset db now ∧
      (∀ l, categoryListing cats db now slug = some l → p ∉ l) ∧
      (findUserByName users username = some u → some u.id ≠ viewer →
        ∀ l, profileListing users db viewer username = some l → p ∉ l) ∧
      ((∀ c2 ∈ cats, c2.slug = c.slug → c2.is_published = false) →
        categoryListing cats db now c.slug = none) := by
  have hlook := lookup_false_of_unpublished hcat hunpub
  refine ⟨?_, ?_, ?_, ?_⟩
  · intro h
    rw [indexQueryset, List.mem_filter] at h
    simp [baseQueryset, hlook] at h
  · intro l hl hp
    cases hfc : findPublishedCategory cats slug with
    | none => simp [categoryListing, hfc] at hl
    | some cat =>
      simp only [categoryListing, hfc, Option.some.injEq] at hl
      subst hl
      rw [List.mem_filter] at hp
      simp [baseQueryset, hlook] at hp
  · intro hu hvne l hl hp
    simp only [profileListing, hu, if_pos hvne, Option.some.injEq] at hl
    subst hl
    rw [List.mem_filter] at hp
    simp [baseQueryset, hlook] at hp
  · intro hall
    have hfc : findPublishedCategory cats c.slug = none := by
      rw [findPublishedCategory, List.find?_eq_none]
      intro x hx
      simp only [Bool.and_eq_true, beq_iff_eq, not_and]
      intro hslug
      rw [hall x hx hslug]
      exact Bool.false_ne_true
    simp [categoryListing, hfc]

/-- C7 (witness). `hiddenPost` sits in the unpublished `draftCat`: it is
absent from the home listing at time 5, from the published "news"
category's listing, and from `alice`'s profile listing as served to the
anonymous viewer; and the listing page for slug "drafts" is Http404. -/
theorem unpublished_category_hides_witness :
    hiddenPost ∉ indexQueryset [hiddenPost] 5 ∧
      (∀ l, categoryListing [draftCat, newsCat] [hiddenPost] 5 "news"
          = some l → hiddenPost ∉ l) ∧
      (findUserByName [alice] "alice" = some alice →
        some alice.id ≠ (none : Option Nat) →
        ∀ l, profileListing [alice] [hiddenPost] none "alice" = some l →
          hiddenPost ∉ l) ∧
      ((∀ c2 ∈ [draftCat, newsCat], c2.slug = draftCat.slug →
          c2.is_published = false) →
        categoryListing [draftCat, newsCat] [hiddenPost] 5 draftCat.slug
          = none) :=
  unpublished_category_hides [draftCat, newsCat] [hiddenPost] [alice] 5
    hiddenPost draftCat "news" "alice" none alice (by decide) (by decide)

/-- C8 (counterexample). A successful post edit — `alice` editing her own
`livePost` — redirects to the post's detail page `/posts/1/`
(`PostUpdateView.get_success_url` reverses `blog:post_detail`), which is
not the profile page of `alice`, the requester and only stored user; so
not every successful post mutation redirects to the profile page. -/
theorem post_edit_redirect_counterexample :
    (updatePost [livePost] alice 1 sampleForm).2
        = .saved (postDetailUrl 1) ∧
      postDetailUrl 1 ≠ profileUrl alice.username := by
  decide

/-- C8 (amended). Successful post creation and deletion redirect to the
requester's profile page; successful post editing redirects to the edited
post's detail page; successful comment creation, editing and deletion
redirect to the target post's detail page. -/
theorem mutation_redirect_targets (db : List Post)
    (comments : List Comment) (viewer : User) (d : PostFormData)
    (cd : CommentFormData) (pid cid n : Nat) (p : Post) (c : Comment)
    (hp : findPost db pid = some p) (hpo : p.author = viewer.id)
    (hc : findComment comments cid = some c) (hco : c.author = viewer.id) :
    (createPost viewer d n).2 = profileUrl viewer.username ∧
      (deletePost db viewer pid).2 = .saved (profileUrl viewer.username) ∧
      (updatePost db viewer pid d).2 = .saved (postDetailUrl pid) ∧
      (createComment db comments viewer pid cd n).2
        = .saved (postDetailUrl pid) ∧
      (updateComment comments viewer cid cd).2
        = .saved (postDetailUrl c.post) ∧
      (deleteComment comments viewer cid).2
        = .saved (postDetailUrl c.post) := by
  have hgp : changePostGate db viewer pid = some (some p) := by
    simp [changePostGate, hp, hpo]
  have hgc : changeCommentGate comments viewer cid = some c := by
    simp [changeCommentGate, hc, hco]
  exact ⟨rfl, by simp [deletePost, hgp], by simp [updatePost, hgp],
    by simp [createComment, hp], by simp [updateComment, hgc],
    by simp [deleteComment, hgc]⟩

/-- C8 (witness). `alice` mutating her own `livePost` and `aliceComment`:
create and delete of the post land on her profile page, the post edit and
all comment operations land on the post's detail page. -/
theorem mutation_redirect_targets_witness :
    (createPost alice sampleForm 9).2 = profileUrl alice.username ∧
      (deletePost [livePost] alice 1).2
        = .saved (profileUrl alice.username) ∧
      (updatePost [livePost] alice 1 sampleForm).2
        = .saved (postDetailUrl 1) ∧
      (createComment [livePost] [aliceComment] alice 1
          sampleCommentForm 9).2 = .saved (postDetailUrl 1) ∧
      (updateComment [aliceComment] alice 1 sampleCommentForm).2
        = .saved (postDetailUrl aliceComment.post) ∧
      (deleteComment [aliceComment] alice 1).2
        = .saved (postDetailUrl aliceComment.post) :=
  mutation_redirect_targets [livePost] [aliceComment] alice sampleForm
    sampleCommentForm 1 1 9 livePost aliceComment
    (by decide) (by decide) (by decide) (by decide)

/-- C9. Comment creation checks only that the target post exists: for any
stored post — its publish flag, date and category state unconstrained —
the request stores a comment attached to that post and succeeds, and it
is Http404 exactly when no post carries the requested id. -/
theorem comment_ignores_post_visibility (db : List Post)
    (comments : List Comment) (viewer : User) (pid n : Nat)
    (d : CommentFormData) (p : Post)
    (hp : findPost db pid = some p) :
    createComment db comments viewer pid d n
        = (comments ++ [⟨n, p.id, viewer.id, d.text⟩],
           .saved (postDetailUrl pid)) ∧
      ∀ db2 pid2, findPost db2 pid2 = none →
        createComment db2 comments viewer pid2 d n
          = (comments, .notFound) := by
  constructor
  · simp [createComment, hp]
  · intro db2 pid2 h
    simp [createComment, h]

/-- C9 (witness). `bob` comments on `alice`'s `hiddenPost` (unpublished,
unpublished category): the comment is stored and the request succeeds;
with an empty post table the same request is Http404. -/
theorem comment_ignores_post_visibility_witness :
    createComment [hiddenPost] [] bob 4 ⟨"hi", none⟩ 7
        = ([⟨7, hiddenPost.id, bob.id, "hi"⟩], .saved (postDetailUrl 4)) ∧
      ∀ db2 pid2, findPost db2 pid2 = none →
        createComment db2 [] bob pid2 ⟨"hi", none⟩ 7 = ([], .notFound) :=
  comment_ignores_post_visibility [hiddenPost] [] bob 4 7 ⟨"hi", none⟩
    hiddenPost (by decide)

/-- A concrete `UserForm` submission, for concrete instances. -/
def sampleUserForm : UserFormData :=
  { username := "alice2", first_name := "Alice", last_name := "L",
    email := "alice2@example.com" }

/-- C10. The profile-edit view writes only the requester's own user row:
every row at a position holding a user other than the requester is
unchanged, and the table keeps its length (no row is created or
removed). -/
theorem profile_edit_only_self (users : List User) (viewer : User)
    (d : UserFormData) (i : Nat) (u : User)
    (hi : users[i]? = some u) (hne : u.id ≠ viewer.id) :
    (editProfile users viewer d).1[i]? = some u ∧
      (editProfile users viewer d).1.length = users.length := by
  constructor
  · simp only [editProfile, List.getElem?_map, hi, Option.map_some']
    simp [hne]
  · simp [editProfile]

/-- C10 (witness). `alice` editing her profile leaves `bob`'s row (index
1) untouched and the user table's length at 2. -/
theorem profile_edit_only_self_witness :
    (editProfile [alice, bob] alice sampleUserForm).1[1]? = some bob ∧
      (editProfile [alice, bob] alice sampleUserForm).1.length
        = [alice, bob].length :=
  profile_edit_only_self [alice, bob] alice sampleUserForm 1 bob
    (by decide) (by decide)

end Blogicum
